import Mathlib

/-!
Shallow embedding of `src/server.py` (Points-Tracker-Backend): a Flask server
holding a single application-state document in a MongoDB collection, plus an
email-to-SMS alert dispatcher.

JSON documents (Python dicts) are modelled as association lists from string
keys to `Val`.  Mongo ObjectIds are `Val.oid`; converting one with `str` gives
`Val.str`.  ISO-8601 UTC timestamps produced by `datetime.now(timezone.utc)`
are abstracted as `Val.time t` with `t : Nat`, ordered as the wall clock is.
-/

/-- JSON-ish values stored in documents. -/
inductive Val where
  | str (s : String)
  | int (n : Int)
  | time (t : Nat)
  | oid (n : Nat)
  | arr (elems : List Val)
  | obj (fields : List (String × Val))

/-- A document: a Python dict, as an insertion-ordered association list. -/
abbrev Dict := List (String × Val)

/-- Dict lookup (`d[k]` / `d.get(k)`): first binding of the key wins. -/
def dictGet : Dict → String → Option Val
  | [], _ => none
  | (k', v) :: rest, k => if k' = k then some v else dictGet rest k

/-- Dict update (`d[k] = v`): replace the first binding in place, else append. -/
def dictSet : Dict → String → Val → Dict
  | [], k, v => [(k, v)]
  | (k', v') :: rest, k, v =>
      if k' = k then (k, v) :: rest else (k', v') :: dictSet rest k v

/-- Dict deletion guarded by membership (`if k in d: del d[k]`). -/
def dictDel (d : Dict) (k : String) : Dict :=
  d.filter (fun p => p.1 ≠ k)

theorem dictGet_set_self (d : Dict) (k : String) (v : Val) :
    dictGet (dictSet d k v) k = some v := by
  induction d with
  | nil => simp [dictSet, dictGet]
  | cons p rest ih =>
      by_cases h : p.1 = k
      · simp [dictSet, h, dictGet]
      · simp [dictSet, h, dictGet, ih]

theorem dictGet_set_ne (d : Dict) (k k' : String) (v : Val) (h : k' ≠ k) :
    dictGet (dictSet d k v) k' = dictGet d k' := by
  have h' : k ≠ k' := Ne.symm h
  induction d with
  | nil => simp [dictSet, dictGet, h']
  | cons p rest ih =>
      by_cases hp : p.1 = k
      · subst hp
        simp [dictSet, dictGet, h']
      · simp [dictSet, dictGet, hp, ih]

theorem dictGet_del_ne (d : Dict) (k k' : String) (h : k' ≠ k) :
    dictGet (dictDel d k) k' = dictGet d k' := by
  induction d with
  | nil => simp [dictDel, dictGet]
  | cons p rest ih =>
      by_cases hp : p.1 = k
      · have hp' : ¬ p.1 = k' := by
          rw [hp]
          exact Ne.symm h
        have h1 : dictDel (p :: rest) k = dictDel rest k := by
          simp [dictDel, hp]
        rw [h1, ih]
        simp [dictGet, hp']
      · have h1 : dictDel (p :: rest) k = p :: dictDel rest k := by
          simp [dictDel, hp]
        rw [h1]
        simp [dictGet, ih]

theorem dictDel_idem (d : Dict) (k : String) :
    dictDel (dictDel d k) k = dictDel d k := by
  induction d with
  | nil => rfl
  | cons p rest ih =>
      by_cases hp : p.1 = k
      · have h1 : dictDel (p :: rest) k = dictDel rest k := by
          simp [dictDel, hp]
        rw [h1, ih]
      · have h1 : dictDel (p :: rest) k = p :: dictDel rest k := by
          simp [dictDel, hp]
        rw [h1]
        have h2 : dictDel (p :: dictDel rest k) k = p :: dictDel (dictDel rest k) k := by
          simp [dictDel, hp]
        rw [h2, ih]

/-! The Mongo collection `app_state`.  The code only ever inserts a document
when `find_one` found none and otherwise replaces the first document, so the
collection holds at most one document in every reachable state; it is modelled
as an `Option`.  The stored document's storage-assigned `_id` is kept apart
from its fields (Mongo assigns it on insert and `replace_one` preserves it),
together with a counter supplying fresh ObjectIds. -/

structure Store where
  doc : Option (Nat × Dict)
  nextOid : Nat

/-- Rendering of `str(ObjectId)` for the model's ObjectIds. -/
def idStr (n : Nat) : String := toString n

/-- Constants `DEFAULT_PIN`, `DEFAULT_ADMIN_PASSWORD_HASH`, `DEFAULT_THRESHOLD`
and the `DEFAULT_STATE` dict from the source, parameterised by the process
start-up time `t0` at which the module-level `datetime.now` call ran. -/
def DEFAULT_PIN : String := "1234"

def DEFAULT_ADMIN_PASSWORD_HASH : String :=
  "a665a45920422f9d417e4867efdc4fb8a04a1f3fff1fa07e998e86f7f7a27ae3"

def DEFAULT_THRESHOLD : Int := 10

def DEFAULT_STATE (t0 : Nat) : Dict :=
  [ ("scores", Val.obj [("Lila", Val.int 0), ("Maryn", Val.int 0)]),
    ("currentPin", Val.str DEFAULT_PIN),
    ("adminPassHash", Val.str DEFAULT_ADMIN_PASSWORD_HASH),
    ("notifications",
      Val.arr (List.replicate 5 (Val.obj [("phone", Val.str ""), ("carrier", Val.str "")]))),
    ("changeHistory", Val.obj [("Lila", Val.arr []), ("Maryn", Val.arr [])]),
    ("pinThreshold", Val.int DEFAULT_THRESHOLD),
    ("lastUpdated", Val.time t0) ]

/-- The `get_state` helper: `find_one`; if a document exists, overwrite its
`_id` with its string form and return it; otherwise `insert_one` the default
state (pymongo sets `_id` on the inserted dict in place, so the returned copy
carries the fresh ObjectId) and return it. -/
def get_state (t0 : Nat) (st : Store) : Dict × Store :=
  match st.doc with
  | some (i, d) => (dictSet d "_id" (Val.str (idStr i)), st)
  | none =>
      (dictSet (DEFAULT_STATE t0) "_id" (Val.oid st.nextOid),
       { doc := some (st.nextOid, DEFAULT_STATE t0), nextOid := st.nextOid + 1 })

/-- The `update_state` helper: drop a caller-supplied `_id`, stamp
`lastUpdated` with the current UTC time, then `replace_one({}, data,
upsert=True)` — a wholesale replace keeping the stored `_id`, or an insert
with a fresh ObjectId when the collection is empty. -/
def update_state (data : Dict) (now : Nat) (st : Store) : Store :=
  let d2 := dictSet (dictDel data "_id") "lastUpdated" (Val.time now)
  match st.doc with
  | some (i, _) => { st with doc := some (i, d2) }
  | none => { doc := some (st.nextOid, d2), nextOid := st.nextOid + 1 }

/-! The alert dispatcher (`send_email_notification` and the routes). -/

/-- A notification entry `n` in the posted list: `n.get('phone')` /
`n.get('carrier')`, with the empty string standing for an unset or missing
field (both are falsy in the source's `if phone and carrier` test). -/
structure Target where
  phone : String
  carrier : String
deriving DecidableEq

/-- The `CARRIER_GATEWAYS` table from the source. -/
def CARRIER_GATEWAYS : List (String × String) :=
  [ ("Verizon", "vtext.com"),
    ("AT&T", "txt.att.net"),
    ("T-Mobile", "tmomail.net"),
    ("Sprint", "messaging.sprintpcs.com"),
    ("Boost Mobile", "sms.alltel.net"),
    ("MetroPCS", "mymetropcs.com"),
    ("Cricket", "mms.aiowireless.net"),
    ("US Cellular", "email.uscc.net") ]

/-- Phone sanitation: `"".join(filter(str.isdigit, str(phone)))`. -/
def cleanPhone (s : String) : String :=
  String.mk (s.data.filter Char.isDigit)

/-- Domain choice: `CARRIER_GATEWAYS.get(carrier) or carrier` — the Python
`or` falls back to the literal carrier string when the lookup misses (or, in
principle, when the table held an empty string). -/
def resolveDomain (carrier : String) : String :=
  match CARRIER_GATEWAYS.lookup carrier with
  | some d => if d = "" then carrier else d
  | none => carrier

/-- The per-target acceptance test of the recipient loop: non-empty phone and
carrier, and exactly 10 digits after sanitation. -/
def validB (n : Target) : Bool :=
  n.phone ≠ "" && n.carrier ≠ "" && (cleanPhone n.phone).length = 10

/-- The address built for an accepted target. -/
def addrOf (n : Target) : String :=
  cleanPhone n.phone ++ "@" ++ resolveDomain n.carrier

/-- The recipient-building loop of `send_email_notification`. -/
def buildRecipients (ns : List Target) : List String :=
  ns.filterMap (fun n =>
    if n.phone ≠ "" ∧ n.carrier ≠ "" then
      let domain := resolveDomain n.carrier
      let p := cleanPhone n.phone
      if p.length = 10 then some (p ++ "@" ++ domain) else none
    else none)

/-- The `EmailMessage` composed for a send: Subject, From, the single To
header, and the body set with `set_content`. -/
structure EmailMsg where
  subject : String
  sender : String
  toLine : String
  body : String
deriving DecidableEq

/-- Outcome of one call to `send_email_notification`: the two early-return
skips, a logged success, or a logged-and-swallowed transport failure. -/
inductive DispatchOutcome where
  | skippedNoCreds
  | skippedNoRecipients
  | sent
  | sendFailed (e : String)
deriving DecidableEq

/-- Result of a dispatch together with the messages actually handed to the
SMTP transport (empty when no connection was attempted). -/
structure DispatchResult where
  outcome : DispatchOutcome
  attempted : List EmailMsg
deriving DecidableEq

/-- The `send_email_notification` function.  `sender`/`password` are the
`GMAIL_SENDER`/`GMAIL_APP_PASSWORD` globals, with the empty string standing
for an unset variable (both are falsy).  `transport` abstracts the
`SMTP_SSL`/`ehlo`/`login`/`send_message` round-trip; a `.error` covers every
exception the `try` block can see (authentication rejection, connection
failure, timeout), all of which the source catches and logs. -/
def send_email_notification (sender password : String)
    (transport : EmailMsg → Except String Unit)
    (message_subject : String) (notifications : List Target) : DispatchResult :=
  if sender = "" ∨ password = "" then
    { outcome := .skippedNoCreds, attempted := [] }
  else
    match buildRecipients notifications with
    | [] => { outcome := .skippedNoRecipients, attempted := [] }
    | r :: rs =>
        let msg : EmailMsg :=
          { subject := "Points Tracker Alert",
            sender := sender,
            toLine := String.intercalate ", " (r :: rs),
            body := message_subject }
        match transport msg with
        | .ok _ => { outcome := .sent, attempted := [msg] }
        | .error e => { outcome := .sendFailed e, attempted := [msg] }

/-! The HTTP layer: `/api/state` GET/POST and `/api/state/notify` POST. -/

/-- A jsonify-ed response body. -/
inductive RespBody where
  | errMsg (e : String)
  | okMsg (m : String)
  | stateDoc (d : Dict)

/-- A Flask response: status code and body. -/
abbrev Response := Nat × RespBody

/-- A status code in the 4xx client-error range. -/
def isClientError (r : Response) : Prop :=
  400 ≤ r.1 ∧ r.1 < 500

/-- Parsed body of a notify request.  `none` in a field models a missing key
(`data.get` returning `None`, or null). -/
structure NotifyBody where
  notificationMessage : Option String
  notifications : Option (List Target)

/-- The `POST /api/state` handler `api_update_state`: `data : Option Dict` is
`request.json`, `none` for an absent or null payload; the empty dict is falsy
and is rejected the same way.  A non-empty dict of any shape is passed to
`update_state` unvalidated. -/
def api_update_state (data : Option Dict) (now : Nat) (st : Store) :
    Response × Store :=
  match data with
  | none => ((400, RespBody.errMsg "No JSON payload provided."), st)
  | some d =>
      match d with
      | [] => ((400, RespBody.errMsg "No JSON payload provided."), st)
      | _ :: _ =>
          ((200, RespBody.okMsg "State updated."), update_state d now st)

/-- The `GET /api/state` handler. -/
def api_get_state (t0 : Nat) (st : Store) : Response × Store :=
  let (d, st') := get_state t0 st
  ((200, RespBody.stateDoc d), st')

/-- The `POST /api/state/notify` handler `api_notify`.  The second component
is `some` exactly when `send_email_notification` was invoked.  The falsy
tests `not message_body` / `not notifications` identify a missing key, an
empty string, and an empty list, which the `Option.getD` collapses. -/
def api_notify (sender password : String)
    (transport : EmailMsg → Except String Unit)
    (data : Option NotifyBody) : Response × Option DispatchResult :=
  match data with
  | none => ((400, RespBody.errMsg "No JSON payload provided."), none)
  | some d =>
      let mb := d.notificationMessage.getD ""
      let ns := d.notifications.getD []
      if mb = "" ∨ ns = [] then
        ((400, RespBody.errMsg "Missing notificationMessage or recipients."), none)
      else
        let r := send_email_notification sender password transport mb ns
        ((200, RespBody.okMsg "Notification triggered."), some r)

/-- Modelled from the spec: the asynchronous dispatch mode (spec sections 4.2,
5 and 7) is not present in `src/server.py`, which calls
`send_email_notification` inline; the spec describes sibling revisions in
which the notify handler instead queues the send as a detached, fire-and-
forget unit of work and answers at once with a success response reading
Notification queued.  This handler performs the same request validation as
`api_notify` and returns the pending job instead of running it. -/
def async_api_notify (data : Option NotifyBody) :
    Response × Option (String × List Target) :=
  match data with
  | none => ((400, RespBody.errMsg "No JSON payload provided."), none)
  | some d =>
      let mb := d.notificationMessage.getD ""
      let ns := d.notifications.getD []
      if mb = "" ∨ ns = [] then
        ((400, RespBody.errMsg "Missing notificationMessage or recipients."), none)
      else
        ((200, RespBody.okMsg "Notification queued"), some (mb, ns))

/-- Modelled from the spec: the detached background task later runs the body
of `send_email_notification` on the queued job.  Its transport may also hang
forever (`none`), in which case the task never completes and there is no
dispatch result at all — only the already-delivered response. -/
def run_async_job (sender password : String)
    (transport : EmailMsg → Option (Except String Unit))
    (job : String × List Target) : Option DispatchResult :=
  if sender = "" ∨ password = "" then
    some { outcome := .skippedNoCreds, attempted := [] }
  else
    match buildRecipients job.2 with
    | [] => some { outcome := .skippedNoRecipients, attempted := [] }
    | r :: rs =>
        let msg : EmailMsg :=
          { subject := "Points Tracker Alert",
            sender := sender,
            toLine := String.intercalate ", " (r :: rs),
            body := job.1 }
        match transport msg with
        | none => none
        | some (.ok _) => some { outcome := .sent, attempted := [msg] }
        | some (.error e) => some { outcome := .sendFailed e, attempted := [msg] }

/-- Modelled from the spec: the complete asynchronous round — the handler
answers the caller, and the background job (if one was queued) runs against
the transport afterwards. -/
def run_async (sender password : String)
    (transport : EmailMsg → Option (Except String Unit))
    (data : Option NotifyBody) : Response × Option (Option DispatchResult) :=
  ((async_api_notify data).1,
   (async_api_notify data).2.map (run_async_job sender password transport))

/-! Claims. -/

theorem update_state_strips_id (D : Dict) (now : Nat) (st : Store) :
    update_state (dictDel D "_id") now st = update_state D now st := by
  unfold update_state
  rw [dictDel_idem]

theorem get_after_update (D : Dict) (now t0 : Nat) (st : Store) (k : String)
    (hk : k ≠ "_id") :
    dictGet (get_state t0 (update_state D now st)).1 k =
      dictGet (dictSet (dictDel D "_id") "lastUpdated" (Val.time now)) k := by
  cases hst : st.doc with
  | some pd =>
      simp only [update_state, get_state, hst]
      exact dictGet_set_ne _ _ _ _ hk
  | none =>
      simp only [update_state, get_state, hst]
      exact dictGet_set_ne _ _ _ _ hk

/-- C1: after `update_state(D)` then `get_state()`, the returned document has
every field of D other than the identity and timestamp fields unchanged (and
no leftover fields from the previous document — a wholesale replace), its
`lastUpdated` stamped to the call-time clock, hence at least any timestamp
read before the call, and the whole round-trip is insensitive to a
caller-supplied `_id`, which is stripped before the write. -/
theorem replace_then_fetch_roundtrip (D : Dict) (st : Store) (t0 tb now : Nat)
    (hclock : tb ≤ now) :
    (∀ k, k ≠ "_id" → k ≠ "lastUpdated" →
      dictGet (get_state t0 (update_state D now st)).1 k = dictGet D k)
    ∧ (∃ tw, dictGet (get_state t0 (update_state D now st)).1 "lastUpdated" =
        some (Val.time tw) ∧ tb ≤ tw)
    ∧ get_state t0 (update_state D now st) =
        get_state t0 (update_state (dictDel D "_id") now st) := by
  refine ⟨?_, ?_, ?_⟩
  · intro k hid hlast
    rw [get_after_update D now t0 st k hid]
    rw [dictGet_set_ne _ _ _ _ hlast]
    exact dictGet_del_ne _ _ _ hid
  · refine ⟨now, ?_, hclock⟩
    have h1 : ("lastUpdated" : String) ≠ "_id" := by decide
    rw [get_after_update D now t0 st _ h1]
    exact dictGet_set_self _ _ _
  · rw [update_state_strips_id]

theorem replace_then_fetch_roundtrip_witness :
    get_state 0 (update_state [("scores", Val.int 1), ("_id", Val.str "x")] 5
        { doc := none, nextOid := 0 }) =
      get_state 0 (update_state
        (dictDel [("scores", Val.int 1), ("_id", Val.str "x")] "_id") 5
        { doc := none, nextOid := 0 }) :=
  (replace_then_fetch_roundtrip [("scores", Val.int 1), ("_id", Val.str "x")]
    { doc := none, nextOid := 0 } 0 2 5 (by decide)).2.2

/-- C2: `get_state` on an empty collection inserts exactly one document whose
fields are the fixed default state, and returns that very document — never a
not-found result; an immediately following `get_state` leaves the store
untouched and returns a document with the same fields. -/
theorem fetch_on_empty_materializes_default (t0 n : Nat) :
    (get_state t0 { doc := none, nextOid := n }).2.doc = some (n, DEFAULT_STATE t0)
    ∧ (∀ k, k ≠ "_id" →
        dictGet (get_state t0 { doc := none, nextOid := n }).1 k =
          dictGet (DEFAULT_STATE t0) k)
    ∧ (get_state t0 (get_state t0 { doc := none, nextOid := n }).2).2 =
        (get_state t0 { doc := none, nextOid := n }).2
    ∧ (∀ k, k ≠ "_id" →
        dictGet (get_state t0 (get_state t0 { doc := none, nextOid := n }).2).1 k =
          dictGet (get_state t0 { doc := none, nextOid := n }).1 k) := by
  refine ⟨rfl, ?_, rfl, ?_⟩
  · intro k hk
    exact dictGet_set_ne _ _ _ _ hk
  · intro k hk
    show dictGet (dictSet (DEFAULT_STATE t0) "_id" (Val.str (idStr n))) k =
      dictGet (dictSet (DEFAULT_STATE t0) "_id" (Val.oid n)) k
    rw [dictGet_set_ne _ _ _ _ hk, dictGet_set_ne _ _ _ _ hk]

theorem fetch_on_empty_materializes_default_witness :
    dictGet (get_state 7 { doc := none, nextOid := 3 }).1 "scores" =
      dictGet (DEFAULT_STATE 7) "scores" :=
  (fetch_on_empty_materializes_default 7 3).2.1 "scores" (by decide)

theorem buildRecipients_cons (n : Target) (ns : List Target) :
    buildRecipients (n :: ns) =
      if validB n then addrOf n :: buildRecipients ns else buildRecipients ns := by
  by_cases h1 : n.phone = ""
  · simp [buildRecipients, List.filterMap_cons, validB, h1]
  · by_cases h2 : n.carrier = ""
    · simp [buildRecipients, List.filterMap_cons, validB, h1, h2]
    · by_cases h3 : (cleanPhone n.phone).length = 10
      · simp [buildRecipients, List.filterMap_cons, validB, addrOf, h1, h2, h3]
      · simp [buildRecipients, List.filterMap_cons, validB, h1, h2, h3]

theorem buildRecipients_eq_filter_map (ns : List Target) :
    buildRecipients ns = (ns.filter validB).map addrOf := by
  induction ns with
  | nil => rfl
  | cons n ns ih =>
      rw [buildRecipients_cons]
      by_cases h : validB n
      · simp [List.filter_cons, h, ih]
      · simp [List.filter_cons, h, ih]

/-- C4: the recipient loop strips non-digits from the phone and keeps a target
exactly when phone and carrier are non-empty and the cleaned phone has 10
digits; everything else is silently dropped (in particular a short phone with
a known carrier yields the empty recipient list, with no error anywhere). -/
theorem buildRecipients_characterization :
    (∀ ns, buildRecipients ns = (ns.filter validB).map addrOf)
    ∧ (∀ n, validB n = true ↔
        (n.phone ≠ "" ∧ n.carrier ≠ "" ∧ (cleanPhone n.phone).length = 10))
    ∧ buildRecipients [{ phone := "123456789", carrier := "Verizon" }] = [] := by
  refine ⟨buildRecipients_eq_filter_map, ?_, by decide⟩
  intro n
  simp [validB, and_assoc]

theorem lookup_gateways_ne_empty (c d : String)
    (h : CARRIER_GATEWAYS.lookup c = some d) : d ≠ "" := by
  simp only [CARRIER_GATEWAYS, List.lookup] at h
  repeat' split at h
  all_goals simp_all
  all_goals (rw [← h]; decide)

theorem resolveDomain_eq_getD (c : String) :
    resolveDomain c = (CARRIER_GATEWAYS.lookup c).getD c := by
  unfold resolveDomain
  cases h : CARRIER_GATEWAYS.lookup c with
  | none => rfl
  | some d => simp [lookup_gateways_ne_empty c d h]

/-- C5: each accepted target's address is the cleaned 10-digit phone, an at
sign, and the domain resolved through the eight-entry carrier-gateway table
with literal passthrough of unrecognised carriers; in particular a Verizon
target resolves to vtext.com and an unknown carrier string is used verbatim
as the domain. -/
theorem buildRecipients_domain_resolution :
    buildRecipients [{ phone := "555-123-4567", carrier := "Verizon" }] =
      ["5551234567@vtext.com"]
    ∧ buildRecipients [{ phone := "5551234567", carrier := "example.org" }] =
      ["5551234567@example.org"]
    ∧ (∀ p c, p ≠ "" → c ≠ "" → (cleanPhone p).length = 10 →
        buildRecipients [{ phone := p, carrier := c }] =
          [cleanPhone p ++ "@" ++ (CARRIER_GATEWAYS.lookup c).getD c]) := by
  refine ⟨by decide, by decide, ?_⟩
  intro p c h1 h2 h3
  have hval : validB { phone := p, carrier := c } = true := by
    simp [validB, h1, h2, h3]
  rw [buildRecipients_cons, if_pos hval]
  simp [buildRecipients, addrOf, resolveDomain_eq_getD]

theorem buildRecipients_domain_resolution_witness :
    buildRecipients [{ phone := "(555) 000-1111", carrier := "AT&T" }] =
      [cleanPhone "(555) 000-1111" ++ "@" ++
        (CARRIER_GATEWAYS.lookup "AT&T").getD "AT&T"] :=
  buildRecipients_domain_resolution.2.2 "(555) 000-1111" "AT&T"
    (by decide) (by decide) (by decide)

/-- C6: with no valid recipients (an empty list or invalid-only targets) the
dispatch returns the benign no-recipients skip and hands nothing to the
transport; with a missing sender or password it returns the credentials skip
first, before any recipient processing, again with no transport attempt. -/
theorem dispatch_skip_paths :
    (∀ sender password transport subject ns,
      sender ≠ "" → password ≠ "" → buildRecipients ns = [] →
        send_email_notification sender password transport subject ns =
          { outcome := .skippedNoRecipients, attempted := [] })
    ∧ (∀ sender password transport subject ns, sender = "" ∨ password = "" →
        send_email_notification sender password transport subject ns =
          { outcome := .skippedNoCreds, attempted := [] }) := by
  constructor
  · intro s p t subj ns hs hp hr
    simp [send_email_notification, hs, hp, hr]
  · intro s p t subj ns h
    simp [send_email_notification, h]

theorem dispatch_skip_paths_witness :
    send_email_notification "u" "pw" (fun _ => Except.ok ()) "hi"
        [{ phone := "12345", carrier := "Verizon" }] =
      { outcome := .skippedNoRecipients, attempted := [] }
    ∧ send_email_notification "u" "pw" (fun _ => Except.ok ()) "hi" [] =
      { outcome := .skippedNoRecipients, attempted := [] }
    ∧ send_email_notification "" "pw" (fun _ => Except.ok ()) "hi"
        [{ phone := "5551234567", carrier := "Verizon" }] =
      { outcome := .skippedNoCreds, attempted := [] } :=
  ⟨dispatch_skip_paths.1 "u" "pw" _ "hi" _ (by decide) (by decide) (by decide),
   dispatch_skip_paths.1 "u" "pw" _ "hi" [] (by decide) (by decide) rfl,
   dispatch_skip_paths.2 "" "pw" _ "hi" _ (Or.inl rfl)⟩

/-- C7: a dispatch hands at most one message to the transport (no retry), and
when the transport fails, the failure is absorbed into an ordinary returned
outcome — one of the two skips or the logged send-failure — never an
unhandled fault. -/
theorem send_attempt_once_and_failures_caught
    (sender password subject : String) (ns : List Target)
    (transport : EmailMsg → Except String Unit) :
    (send_email_notification sender password transport subject ns).attempted.length ≤ 1
    ∧ ∀ e, (send_email_notification sender password (fun _ => Except.error e)
          subject ns).outcome = DispatchOutcome.skippedNoCreds
      ∨ (send_email_notification sender password (fun _ => Except.error e)
          subject ns).outcome = DispatchOutcome.skippedNoRecipients
      ∨ (send_email_notification sender password (fun _ => Except.error e)
          subject ns).outcome = DispatchOutcome.sendFailed e := by
  constructor
  · unfold send_email_notification
    split
    · simp
    · split
      · simp
      · dsimp only
        split <;> simp
  · intro e
    unfold send_email_notification
    split
    · simp
    · split
      · simp
      · simp

/-- C9: every dispatch that reaches the send stage composes exactly one
message, with the fixed subject header regardless of the caller's text, the
caller's text as the body, and all recipients joined into the one To line. -/
theorem composed_message_shape (sender password subject : String)
    (ns : List Target) (transport : EmailMsg → Except String Unit)
    (hs : sender ≠ "") (hp : password ≠ "") (hr : buildRecipients ns ≠ []) :
    (send_email_notification sender password transport subject ns).attempted =
      [{ subject := "Points Tracker Alert",
         sender := sender,
         toLine := String.intercalate ", " (buildRecipients ns),
         body := subject }] := by
  unfold send_email_notification
  rw [if_neg (by simp [hs, hp])]
  cases hrec : buildRecipients ns with
  | nil => exact absurd hrec hr
  | cons r rs =>
      dsimp only
      split <;> rfl

theorem composed_message_shape_witness :
    (send_email_notification "u" "pw" (fun _ => Except.ok ()) "msg"
        [{ phone := "5551234567", carrier := "Verizon" }]).attempted =
      [{ subject := "Points Tracker Alert", sender := "u",
         toLine := String.intercalate ", "
           (buildRecipients [{ phone := "5551234567", carrier := "Verizon" }]),
         body := "msg" }] :=
  composed_message_shape "u" "pw" "msg" _ _ (by decide) (by decide) (by decide)

/-- C3: in the spec-modelled asynchronous mode, the response handed back to
the triggering caller is fixed before the background job runs: it is
identical for every transport behaviour, including one that hangs forever,
and it is only ever the validation error or the fixed queued-success reply —
never a transport failure. -/
theorem async_dispatch_shields_caller (sender password : String)
    (transport : EmailMsg → Option (Except String Unit))
    (data : Option NotifyBody) :
    (run_async sender password transport data).1 = (async_api_notify data).1
    ∧ (∀ transport2, (run_async sender password transport data).1 =
        (run_async sender password transport2 data).1)
    ∧ (run_async sender password (fun _ => none) data).1 =
        (async_api_notify data).1
    ∧ ((run_async sender password transport data).1.1 = 400
        ∨ (run_async sender password transport data).1 =
          (200, RespBody.okMsg "Notification queued")) := by
  refine ⟨rfl, fun _ => rfl, rfl, ?_⟩
  cases data with
  | none => exact Or.inl rfl
  | some d =>
      by_cases h : d.notificationMessage.getD "" = "" ∨ d.notifications.getD [] = []
      · exact Or.inl (by simp [run_async, async_api_notify, h])
      · exact Or.inr (by simp [run_async, async_api_notify, h])

/-- C8: a notify request with no payload, or whose payload lacks (or has a
falsy) message or notifications list, is answered with a 400 error body and
`send_email_notification` is never invoked. -/
theorem notify_missing_fields_client_error
    (sender password : String) (transport : EmailMsg → Except String Unit) :
    (api_notify sender password transport none =
      ((400, RespBody.errMsg "No JSON payload provided."), none))
    ∧ (∀ d : NotifyBody,
        d.notificationMessage.getD "" = "" ∨ d.notifications.getD [] = [] →
        api_notify sender password transport (some d) =
          ((400, RespBody.errMsg "Missing notificationMessage or recipients."), none)) := by
  refine ⟨rfl, ?_⟩
  intro d h
  simp [api_notify, h]

theorem notify_missing_fields_client_error_witness :
    api_notify "u" "pw" (fun _ => Except.ok ())
        (some { notificationMessage := some "hello", notifications := some [] }) =
      ((400, RespBody.errMsg "Missing notificationMessage or recipients."), none) :=
  (notify_missing_fields_client_error "u" "pw" (fun _ => Except.ok ())).2
    { notificationMessage := some "hello", notifications := some [] }
    (Or.inr rfl)

/-- Fields of the one stored document, for stating what a write leaves in the
collection. -/
def storedFields (st : Store) : Dict :=
  match st.doc with
  | some (_, f) => f
  | none => []

theorem storedFields_update (d : Dict) (now : Nat) (st : Store) :
    storedFields (update_state d now st) =
      dictSet (dictDel d "_id") "lastUpdated" (Val.time now) := by
  cases hst : st.doc <;> simp [update_state, storedFields, hst]

/-- C10: the state-update endpoint returns a client error exactly when the
JSON body is absent or the empty document; any other document — whatever
fields it has or lacks — is accepted, passed to `update_state` unvalidated,
and stored with every field intact except that a caller `_id` is removed and
`lastUpdated` is stamped. -/
theorem update_endpoint_validation (data : Option Dict) (now : Nat) (st : Store) :
    (isClientError (api_update_state data now st).1 ↔ data = none ∨ data = some [])
    ∧ (∀ d : Dict, d ≠ [] →
        api_update_state (some d) now st =
          ((200, RespBody.okMsg "State updated."), update_state d now st))
    ∧ (∀ d : Dict, ∀ k, k ≠ "_id" → k ≠ "lastUpdated" →
        dictGet (storedFields (update_state d now st)) k = dictGet d k)
    ∧ (∀ d : Dict, dictGet (storedFields (update_state d now st)) "lastUpdated" =
        some (Val.time now)) := by
  refine ⟨?_, ?_, ?_, ?_⟩
  · cases data with
    | none => simp [api_update_state, isClientError]
    | some d =>
        cases d with
        | nil => simp [api_update_state, isClientError]
        | cons p rest => simp [api_update_state, isClientError]
  · intro d hd
    cases d with
    | nil => exact absurd rfl hd
    | cons p rest => rfl
  · intro d k hid hlast
    rw [storedFields_update, dictGet_set_ne _ _ _ _ hlast]
    exact dictGet_del_ne _ _ _ hid
  · intro d
    rw [storedFields_update]
    exact dictGet_set_self _ _ _

theorem update_endpoint_validation_witness :
    api_update_state (some [("scores", Val.int 2)]) 5 { doc := none, nextOid := 0 } =
      ((200, RespBody.okMsg "State updated."),
        update_state [("scores", Val.int 2)] 5 { doc := none, nextOid := 0 }) :=
  (update_endpoint_validation (some [("scores", Val.int 2)]) 5
    { doc := none, nextOid := 0 }).2.1 [("scores", Val.int 2)] (by simp)
